import Mathlib

/-!
Shallow embedding of the two z3 verification scripts of the repository
`Formal-Verification-of-Smart-Contracts`:

* `contracts-easy/erc20-overflow/erc20-overflow.py` — declares three 256-bit
  bit-vector constants `user_balance`, `updated_user_balance`,
  `requested_amount`, asserts the single conjunction
  `UGT(user_balance, requested_amount) ∧
   updated_user_balance == user_balance - requested_amount ∧
   UGT(updated_user_balance, user_balance)`
  and prints one of two messages depending on `s.check() == sat`.

* `contracts-easy/access-control-verification/access-control-verificaiton.py`
  — declares symbolic arrays over 160-bit addresses, models a constructor
  (ten `Store` updates into `isAdmin`, `REQUIRED_SIGNATURES == 3`,
  `critical_upgrade == False`), an `approveAction` implication, two
  unconditionally asserted `upgradeContract` conjuncts, a negated safety
  property, and prints one of two messages depending on `s.check() == sat`.

The embedding models each z3 sort by a Lean type (`BitVecSort 256` and
`BitVecSort 160` by `Fin (2 ^ 256)` and `Fin (2 ^ 160)`, `IntSort` by `Int`,
`BoolSort` by `Bool`, arrays by functions), each free symbolic constant by a
field of a valuation structure, and each asserted formula by a `Prop` over the
valuation.  Satisfiability of the scripts' constraint sets then becomes
existence of a valuation making the corresponding `Prop` true.
-/

namespace SmartContracts

/-- Outcome of the external decision procedure (`s.check()` in both scripts):
`sat`, `unsat`, or `unknown` (z3's third outcome, returned on timeout or
resource exhaustion). -/
inductive SolverResult where
  | sat
  | unsat
  | unknown
deriving DecidableEq

/-- The two print branches each script can take after `s.check()`:
`violated` stands for the "Counter Example Found" message and `proved` for
the "NOT possible" / "never happens" message.  Neither script has a third
branch. -/
inductive ScriptVerdict where
  | violated
  | proved
deriving DecidableEq

/-- Verdict branch of the access-control script (lines 125-128):
`if s.check () == sat: ... else: ...`. -/
def acVerdict (r : SolverResult) : ScriptVerdict :=
  if r = SolverResult.sat then ScriptVerdict.violated else ScriptVerdict.proved

/-- Verdict branch of the erc20-overflow script (lines 82-85):
`if s.check() == sat: ... else: ...`. -/
def erc20Verdict (r : SolverResult) : ScriptVerdict :=
  if r = SolverResult.sat then ScriptVerdict.violated else ScriptVerdict.proved

/-! ## The erc20-overflow script -/

/-- 256-bit unsigned bit-vectors (`BitVecSort 256`), with wraparound
subtraction given by `Fin.sub` (`(a + (2^256 - b)) % 2^256`). -/
abbrev BV256 := Fin (2 ^ 256)

instance : NeZero (2 ^ 256) := ⟨by positivity⟩

/-- z3's unsigned greater-than `UGT a b` on 256-bit bit-vectors. -/
def UGT (a b : BV256) : Prop := b < a

/-- z3's unsigned greater-or-equal `UGE a b` on 256-bit bit-vectors. -/
def UGE (a b : BV256) : Prop := b ≤ a

instance (a b : BV256) : Decidable (UGT a b) := inferInstanceAs (Decidable (b < a))

instance (a b : BV256) : Decidable (UGE a b) := inferInstanceAs (Decidable (b ≤ a))

/-- The one conjunction the erc20-overflow script asserts (lines 74-80):
guard, wraparound subtraction, and the negated safety property. -/
def erc20Query (user_balance requested_amount updated_user_balance : BV256) : Prop :=
  UGT user_balance requested_amount ∧
  updated_user_balance = user_balance - requested_amount ∧
  UGT updated_user_balance user_balance

/-- The same query with the guard `UGT (user_balance, requested_amount)`
removed: only the wraparound subtraction and the underflow condition. -/
def erc20UnguardedQuery (user_balance requested_amount updated_user_balance : BV256) : Prop :=
  updated_user_balance = user_balance - requested_amount ∧
  UGT updated_user_balance user_balance

/-- The guard exactly as the script encodes it: `UGT(user_balance,
requested_amount)`, i.e. strict `balance > amount`. -/
def encodedWithdrawGuard (user_balance requested_amount : BV256) : Prop :=
  UGT user_balance requested_amount

/-- Modelled from the spec: the check required by the source contract sketch
quoted at the top of the erc20 script, `require(balance >= amount)` — the
non-strict comparison, for comparison with `encodedWithdrawGuard`. -/
def sketchWithdrawCheck (user_balance requested_amount : BV256) : Prop :=
  UGE user_balance requested_amount

instance (a b : BV256) : Decidable (encodedWithdrawGuard a b) :=
  inferInstanceAs (Decidable (UGT a b))

instance (a b : BV256) : Decidable (sketchWithdrawCheck a b) :=
  inferInstanceAs (Decidable (UGE a b))

/-- All-ones 256-bit value `2^256 - 1`, the wraparound result of `0 - 1`. -/
def bvAllOnes : BV256 := ⟨2 ^ 256 - 1, by norm_num⟩

/-- Wraparound subtraction does not wrap when the subtrahend is at most the
minuend: the `Fin` difference then has the `Nat` difference as value. -/
theorem val_sub_of_le {a b : BV256} (h : b ≤ a) : (a - b).val = a.val - b.val :=
  Fin.coe_sub_iff_le.mpr h

/-- C2. Underflow guard soundness: the conjunction asserted by the
erc20-overflow script — strict guard, wraparound subtraction, and
`UGT(updated_user_balance, user_balance)` — is unsatisfiable: no triple of
256-bit values satisfies `erc20Query`. -/
theorem erc20_query_unsat :
    ∀ user_balance requested_amount updated_user_balance : BV256,
      erc20Query user_balance requested_amount updated_user_balance ↔ False := by
  intro ub ra uub
  simp only [erc20Query, UGT, iff_false, not_and]
  intro hguard hsub hwrap
  have hle : ra ≤ ub := le_of_lt hguard
  have hval : (ub - ra).val = ub.val - ra.val := val_sub_of_le hle
  rw [hsub] at hwrap
  have hlt : ub.val < (ub - ra).val := hwrap
  omega

/-- C9. Underflow guard necessity: with the guard removed the query is
satisfiable — the assignment `user_balance = 0`, `requested_amount = 1`,
`updated_user_balance = 2^256 - 1` satisfies it — and every satisfying
assignment has `user_balance` unsigned-less-than `requested_amount`. -/
theorem erc20_unguarded_query_sat_only_by_underflow :
    erc20UnguardedQuery 0 1 bvAllOnes ∧
    ∀ user_balance requested_amount updated_user_balance : BV256,
      erc20UnguardedQuery user_balance requested_amount updated_user_balance →
        UGT requested_amount user_balance := by
  constructor
  · exact ⟨by decide, by decide⟩
  · intro ub ra uub h
    rcases h with ⟨hsub, hwrap⟩
    simp only [UGT] at hwrap ⊢
    by_contra hge
    have hle : ra ≤ ub := not_lt.mp hge
    have hval : (ub - ra).val = ub.val - ra.val := val_sub_of_le hle
    rw [hsub] at hwrap
    have hlt : ub.val < (ub - ra).val := hwrap
    omega

/-- C10. The non-strict guard is also sufficient: under `UGE(user_balance,
requested_amount)` the wraparound difference never exceeds `user_balance`,
and it equals `user_balance` exactly when `requested_amount = 0`. -/
theorem erc20_nonstrict_guard_sound :
    ∀ user_balance requested_amount updated_user_balance : BV256,
      UGE user_balance requested_amount →
      updated_user_balance = user_balance - requested_amount →
        ¬ UGT updated_user_balance user_balance ∧
        (updated_user_balance = user_balance ↔ requested_amount = 0) := by
  intro ub ra uub hge hsub
  have hle : ra ≤ ub := hge
  have hval : (ub - ra).val = ub.val - ra.val := val_sub_of_le hle
  have hra : ra.val ≤ ub.val := hle
  subst hsub
  constructor
  · simp only [UGT, not_lt]
    exact Fin.le_def.mpr (by omega)
  · rw [Fin.ext_iff, Fin.ext_iff, hval, Fin.val_zero]
    omega

/-- Closed instance of `erc20_nonstrict_guard_sound` at `user_balance = 5`,
`requested_amount = 5`, `updated_user_balance = 0`. -/
theorem erc20_nonstrict_guard_sound_witness :
    ¬ UGT ((5 : BV256) - 5) 5 ∧ (((5 : BV256) - 5) = 5 ↔ (5 : BV256) = 0) :=
  erc20_nonstrict_guard_sound 5 5 (5 - 5) (by decide) rfl

/-- C8 counterexample: at `user_balance = requested_amount = 0` the contract
sketch's non-strict check holds while the encoded strict guard does not, so
the two are not equivalent. -/
theorem encoded_guard_differs_from_sketch_at_zero :
    sketchWithdrawCheck 0 0 ∧ ¬ encodedWithdrawGuard 0 0 := by
  constructor
  · exact le_refl _
  · decide

/-- C8 amended: the encoded strict guard `UGT(user_balance,
requested_amount)` is strictly stronger than the sketch's check
`balance >= amount` — it is equivalent to the sketch's check conjoined with
`user_balance ≠ requested_amount`. -/
theorem encoded_guard_iff_sketch_check_and_ne :
    ∀ user_balance requested_amount : BV256,
      encodedWithdrawGuard user_balance requested_amount ↔
        (sketchWithdrawCheck user_balance requested_amount ∧
          user_balance ≠ requested_amount) := by
  intro ub ra
  simp only [encodedWithdrawGuard, sketchWithdrawCheck, UGT, UGE]
  constructor
  · intro h
    exact ⟨le_of_lt h, ne_of_gt h⟩
  · intro ⟨hle, hne⟩
    exact lt_of_le_of_ne hle (fun heq => hne heq.symm)

/-! ## The access-control script -/

/-- 160-bit addresses (`BitVecSort 160`), the key sort of every storage
array in the access-control script. -/
abbrev Addr := Fin (2 ^ 160)

instance : NeZero (2 ^ 160) := ⟨by positivity⟩

/-- A valuation of the free symbolic constants the access-control script
declares.  Each z3 `Array` is a total function; the fields named after the
Python variables hold the constants' values *before* any `Store` rebinds the
Python name.  The script declares `updated_critical_upgrade` as
`Bool ("critical_upgrade")`, the very same solver constant as
`critical_upgrade`, so the valuation has a single Boolean field for both
Python names (see `updatedCriticalUpgrade`). -/
structure ACValuation where
  approvals : Addr → Int
  updated_approvals : Addr → Int
  isAdmin : Addr → Bool
  updated_isAdmin : Addr → Bool
  approvedBy : Addr → Addr → Bool
  updated_approvedBy : Addr → Addr → Bool
  admins : Int → Addr
  admin : Fin 10 → Addr
  sender : Addr
  target : Addr
  critical_upgrade : Bool
  REQUIRED_SIGNATURES : Int

/-- z3's `Store`: the functional array update, `Select (Store m k x) a` being
`x` when `a = k` and `Select m a` otherwise. -/
def store {α β : Type} [DecidableEq α] (m : α → β) (k : α) (x : β) : α → β :=
  fun a => if a = k then x else m a

/-- Value of the Python variable `isAdmin` after the constructor loop
(lines 93-96): ten nested `Store`s writing `True` at `admin_0 .. admin_9`,
applied to the base array `Array ("isAdmin", ...)`. -/
def isAdminFinal (v : ACValuation) : Addr → Bool :=
  store (store (store (store (store (store (store (store (store (store
    v.isAdmin (v.admin 0) true) (v.admin 1) true) (v.admin 2) true)
    (v.admin 3) true) (v.admin 4) true) (v.admin 5) true) (v.admin 6) true)
    (v.admin 7) true) (v.admin 8) true) (v.admin 9) true

/-- Value of the Python variable `admins` after the constructor loop:
ten nested `Store`s writing `admin_i` at integer index `i`.  No asserted
constraint reads this array; it is embedded for completeness. -/
def adminsFinal (v : ACValuation) : Int → Addr :=
  store (store (store (store (store (store (store (store (store (store
    v.admins 0 (v.admin 0)) 1 (v.admin 1)) 2 (v.admin 2)) 3 (v.admin 3))
    4 (v.admin 4)) 5 (v.admin 5)) 6 (v.admin 6)) 7 (v.admin 7))
    8 (v.admin 8)) 9 (v.admin 9)

/-- Both Python names `critical_upgrade` and `updated_critical_upgrade`
are built by `Bool ("critical_upgrade")` (lines 83-84) and therefore denote
the same solver constant; the second name is this alias. -/
def updatedCriticalUpgrade (v : ACValuation) : Bool := v.critical_upgrade

/-- Constructor constraints the script asserts (lines 91, 98):
`REQUIRED_SIGNATURES == 3` and `critical_upgrade == False`.  The ten `Store`
updates of the loop rebind Python variables and are not themselves asserted
constraints; they reach the solver only inside `require1`. -/
def constructorConstraints (v : ACValuation) : Prop :=
  v.REQUIRED_SIGNATURES = 3 ∧ v.critical_upgrade = false

/-- Line 102: `require1 = (isAdmin [sender] == True)`, where `isAdmin` is
the post-constructor store chain. -/
def require1 (v : ACValuation) : Prop := isAdminFinal v v.sender = true

/-- Line 103: `require2 = (approvedBy [target][sender] == False)`. -/
def require2 (v : ACValuation) : Prop := v.approvedBy v.target v.sender = false

/-- Line 105: `action1 = (updated_approvedBy [target][sender] ==
Not (approvedBy [target][sender]))`. -/
def action1 (v : ACValuation) : Prop :=
  v.updated_approvedBy v.target v.sender = !(v.approvedBy v.target v.sender)

/-- Line 106: `action2 = (updated_approvals [target] == approvals [target] + 1)`. -/
def action2 (v : ACValuation) : Prop :=
  v.updated_approvals v.target = v.approvals v.target + 1

/-- Line 108: the approveAction encoding,
`Implies (And (require1, require2), And (action1, action2))`. -/
def approveConstraint (v : ACValuation) : Prop :=
  (require1 v ∧ require2 v) → (action1 v ∧ action2 v)

/-- The approve guard `require1 ∧ require2`. -/
def approveGuard (v : ACValuation) : Prop := require1 v ∧ require2 v

/-- Line 109: `Implies (updated_approvals [target] < REQUIRED_SIGNATURES,
updated_critical_upgrade == critical_upgrade)`. -/
def noUpgradeBelowThreshold (v : ACValuation) : Prop :=
  v.updated_approvals v.target < v.REQUIRED_SIGNATURES →
    updatedCriticalUpgrade v = v.critical_upgrade

/-- First argument of the `s.add` on line 110, asserted as a constraint of
its own: `updated_approvals [target] >= REQUIRED_SIGNATURES`. -/
def executeGuardConstraint (v : ACValuation) : Prop :=
  v.REQUIRED_SIGNATURES ≤ v.updated_approvals v.target

/-- Second argument of the `s.add` on line 110, asserted as a constraint of
its own: `updated_critical_upgrade == Not (critical_upgrade)`. -/
def executeEffectConstraint (v : ACValuation) : Prop :=
  updatedCriticalUpgrade v = !v.critical_upgrade

/-- Line 122, the negated safety property:
`And (updated_approvals[target] < REQUIRED_SIGNATURES,
updated_critical_upgrade == True)`. -/
def negatedProperty (v : ACValuation) : Prop :=
  v.updated_approvals v.target < v.REQUIRED_SIGNATURES ∧
  updatedCriticalUpgrade v = true

/-- Conjunction of everything the access-control script passes to `s.add`,
in program order. -/
def acConstraints (v : ACValuation) : Prop :=
  constructorConstraints v ∧ approveConstraint v ∧ noUpgradeBelowThreshold v ∧
  executeGuardConstraint v ∧ executeEffectConstraint v ∧ negatedProperty v

/-- Modelled from the spec: the execute/upgradeContract transition as the
claim states its encoding — the implication from the guard
`updated_approvals [target] >= REQUIRED_SIGNATURES` to the effect
`updated_critical_upgrade == True` — for comparison with what line 110
actually asserts (`executeGuardConstraint` and `executeEffectConstraint`
as two separate constraints). -/
def executeSpecEncoding (v : ACValuation) : Prop :=
  executeGuardConstraint v → updatedCriticalUpgrade v = true

/-- The frame the approve claim asserts: away from the two written entries,
the post-state arrays agree with the pre-state arrays. -/
def approveFrame (v : ACValuation) : Prop :=
  (∀ a : Addr, v.updated_isAdmin a = isAdminFinal v a) ∧
  (∀ k : Addr, k ≠ v.target → v.updated_approvals k = v.approvals k) ∧
  (∀ t s : Addr, ¬ (t = v.target ∧ s = v.sender) →
    v.updated_approvedBy t s = v.approvedBy t s)

instance (v : ACValuation) : Decidable (require1 v) :=
  inferInstanceAs (Decidable (_ = _))

instance (v : ACValuation) : Decidable (require2 v) :=
  inferInstanceAs (Decidable (_ = _))

instance (v : ACValuation) : Decidable (action1 v) :=
  inferInstanceAs (Decidable (_ = _))

instance (v : ACValuation) : Decidable (action2 v) :=
  inferInstanceAs (Decidable (_ = _))

instance (v : ACValuation) : Decidable (approveGuard v) :=
  inferInstanceAs (Decidable (_ ∧ _))

instance (v : ACValuation) : Decidable (constructorConstraints v) :=
  inferInstanceAs (Decidable (_ ∧ _))

instance (v : ACValuation) : Decidable (executeGuardConstraint v) :=
  inferInstanceAs (Decidable (_ ≤ _))

/-- The address `1`, used as an example key written by no constructor
`Store` in the concrete valuations below. -/
def addrOne : Addr := 1

/-- Concrete valuation refuting the execute-guard claim: `updated_approvals`
is constantly `0`, so the execute guard `3 ≤ 0` is false, yet the
implication form of the transition is satisfied. -/
def v3 : ACValuation where
  approvals := fun _ => 0
  updated_approvals := fun _ => 0
  isAdmin := fun _ => true
  updated_isAdmin := fun _ => true
  approvedBy := fun _ _ => true
  updated_approvedBy := fun _ _ => true
  admins := fun _ => 0
  admin := fun _ => 0
  sender := 0
  target := 0
  critical_upgrade := false
  REQUIRED_SIGNATURES := 3

/-- Concrete valuation refuting the default-value claim: the base `isAdmin`
array is constantly `true`, `approvals` constantly `5`, `approvedBy`
constantly `true`, while all ten admin constants are the address `0` and the
two asserted constructor constraints hold. -/
def v6 : ACValuation where
  approvals := fun _ => 5
  updated_approvals := fun _ => 0
  isAdmin := fun _ => true
  updated_isAdmin := fun _ => true
  approvedBy := fun _ _ => true
  updated_approvedBy := fun _ _ => true
  admins := fun _ => 0
  admin := fun _ => 0
  sender := 0
  target := 0
  critical_upgrade := false
  REQUIRED_SIGNATURES := 3

/-- Concrete valuation refuting the approve-frame claim: the approve guard
holds and both approve actions hold, yet `updated_isAdmin` differs from the
pre-state `isAdmin` everywhere, `updated_approvals` differs at every key
other than the target, and `updated_approvedBy` differs at every pair other
than `(target, sender)`. -/
def v7 : ACValuation where
  approvals := fun _ => 0
  updated_approvals := fun _ => 1
  isAdmin := fun _ => true
  updated_isAdmin := fun _ => false
  approvedBy := fun _ _ => false
  updated_approvedBy := fun _ _ => true
  admins := fun _ => 0
  admin := fun _ => 0
  sender := 0
  target := 0
  critical_upgrade := false
  REQUIRED_SIGNATURES := 3

/-- Writing `true` into a Boolean array preserves any key already reading
`true`. -/
theorem store_true {α : Type} [DecidableEq α] {m : α → Bool} (k : α) {a : α}
    (h : m a = true) : store m k true a = true := by
  unfold store
  split
  · rfl
  · exact h

/-- Reading a stored key returns the stored value. -/
theorem store_self {α β : Type} [DecidableEq α] (m : α → β) (k : α) (x : β) :
    store m k x k = x := by
  unfold store
  simp

/-- The execute-effect constraint `critical_upgrade == Not (critical_upgrade)`
has no model: both Python names denote one Boolean constant. -/
theorem executeEffect_unsat (v : ACValuation) : ¬ executeEffectConstraint v := by
  unfold executeEffectConstraint updatedCriticalUpgrade
  cases v.critical_upgrade <;> simp

/-- C1. Threshold safety as the script checks it: the conjunction of every
constraint the access-control script asserts — constructor, approve
encoding, both line-110 conjuncts, and the negated property — has no model,
so `s.check ()` returns `unsat` and the script takes the "Critical upgrade
NOT possible without enough signer" branch. -/
theorem ac_constraints_unsat_and_script_reports_proved :
    (∀ v : ACValuation, acConstraints v ↔ False) ∧
    acVerdict SolverResult.unsat = ScriptVerdict.proved := by
  constructor
  · intro v
    constructor
    · intro h
      unfold acConstraints constructorConstraints executeGuardConstraint
        negatedProperty at h
      obtain ⟨⟨hreq, -⟩, -, -, hguard, -, hlt, -⟩ := h
      rw [hreq] at hguard hlt
      omega
    · exact False.elim
  · rfl

/-- C4. Vacuity of the threshold proof: `updated_critical_upgrade` is the
same solver constant as `critical_upgrade`, so the unconditionally asserted
effect `updated_critical_upgrade == Not (critical_upgrade)` has the form
`x == ¬x` and is unsatisfiable on its own; conjoined with any further
constraints whatsoever the set stays unsatisfiable, independently of the
constructor, the approve modeling and the negated property. -/
theorem critical_upgrade_alias_removes_all_models :
    (∀ v : ACValuation, updatedCriticalUpgrade v = v.critical_upgrade) ∧
    (∀ v : ACValuation, executeEffectConstraint v ↔ False) ∧
    (∀ (P : ACValuation → Prop) (v : ACValuation),
      (P v ∧ executeEffectConstraint v) ↔ False) :=
  ⟨fun _ => rfl,
   fun v => iff_false_intro (executeEffect_unsat v),
   fun _ v => iff_false_intro (fun h => executeEffect_unsat v h.2)⟩

/-- C3 evaluated at the failing input: the valuation `v3`, in which the
execute guard is false, satisfies the guard-to-effect implication the claim
describes, yet violates the constraint the code actually asserts — line 110
passes the guard to `s.add` as a constraint of its own, so every model of
the script's constraints must make the guard true. -/
theorem execute_guard_asserted_outright :
    executeSpecEncoding v3 ∧ (executeGuardConstraint v3 ↔ False) :=
  ⟨fun h => absurd h (by decide), iff_false_intro (by decide)⟩

/-- C5 counterexample: a solver outcome of `unknown` falls into the `else`
branch of both scripts and is reported with the same message as a proof. -/
theorem unknown_reported_as_proved :
    acVerdict SolverResult.unknown = ScriptVerdict.proved ∧
    erc20Verdict SolverResult.unknown = ScriptVerdict.proved :=
  ⟨rfl, rfl⟩

/-- C5 amended: both scripts map the solver outcome two ways only —
`sat` to the violated branch and everything else, `unsat` and `unknown`
alike, to the proved branch; no third verdict exists. -/
theorem verdict_mapping_is_two_way :
    (acVerdict SolverResult.sat = ScriptVerdict.violated ∧
     acVerdict SolverResult.unsat = ScriptVerdict.proved ∧
     acVerdict SolverResult.unknown = ScriptVerdict.proved) ∧
    (erc20Verdict SolverResult.sat = ScriptVerdict.violated ∧
     erc20Verdict SolverResult.unsat = ScriptVerdict.proved ∧
     erc20Verdict SolverResult.unknown = ScriptVerdict.proved) :=
  ⟨⟨rfl, rfl, rfl⟩, ⟨rfl, rfl, rfl⟩⟩

/-- C6 counterexample: the valuation `v6` satisfies both asserted
constructor constraints, the address `1` is written by no constructor
`Store`, and yet after the constructor `isAdmin [1]` reads `true`,
`approvals [target]` reads `5` and `approvedBy [target][sender]` reads
`true` — the arrays do not default to `False`/`0` on unwritten keys. -/
theorem initial_maps_not_defaulted :
    constructorConstraints v6 ∧ (∀ i : Fin 10, ¬ v6.admin i = addrOne) ∧
    isAdminFinal v6 addrOne = true ∧ v6.approvals v6.target = 5 ∧
    v6.approvedBy v6.target v6.sender = true := by
  refine ⟨by decide, by decide, by decide, by decide, by decide⟩

/-- C6 amended: the constructor's store chain pins `isAdmin` to `true`
exactly at the ten admin constants; at every other key it returns the
unconstrained base array, and `approvals` and `approvedBy` are left
entirely unconstrained — a valuation satisfying the asserted constructor
constraints may give them any values. -/
theorem initial_maps_free_off_stores :
    (∀ (v : ACValuation) (a : Addr), (∀ i : Fin 10, ¬ a = v.admin i) →
      isAdminFinal v a = v.isAdmin a) ∧
    (∀ (v : ACValuation) (i : Fin 10), isAdminFinal v (v.admin i) = true) ∧
    (∃ v : ACValuation, constructorConstraints v ∧
      v.approvals v.target = 5 ∧ v.approvedBy v.target v.sender = true) := by
  refine ⟨?_, ?_, ⟨v6, by decide, by decide, by decide⟩⟩
  · intro v a h
    simp only [isAdminFinal, store, if_neg (h 0), if_neg (h 1), if_neg (h 2),
      if_neg (h 3), if_neg (h 4), if_neg (h 5), if_neg (h 6), if_neg (h 7),
      if_neg (h 8), if_neg (h 9)]
  · intro v i
    fin_cases i <;>
      · simp only [isAdminFinal]
        repeat first
          | exact store_self _ _ _
          | apply store_true

/-- C7 counterexample: the valuation `v7` satisfies the approve encoding
with its guard true, yet its post-state differs from the pre-state away
from the two written entries: the encoding contains no frame conditions. -/
theorem approve_frame_not_implied :
    approveConstraint v7 ∧ approveGuard v7 ∧ (approveFrame v7 → False) := by
  refine ⟨fun _ => ⟨by decide, by decide⟩, by decide, fun h => ?_⟩
  exact absurd (h.1 0) (by decide)

/-- C7 amended: whenever the approve guard holds, the encoding does force
`approvedBy [target][sender]` to `true` and `approvals [target]` to its
pre-value plus one, but it imposes no frame: a model may change
`updated_isAdmin`, `updated_approvals` at keys other than the target, and
`updated_approvedBy` at pairs other than `(target, sender)` arbitrarily. -/
theorem approve_effect_without_frame :
    (∀ v : ACValuation, approveConstraint v → approveGuard v →
      v.updated_approvedBy v.target v.sender = true ∧
      v.updated_approvals v.target = v.approvals v.target + 1) ∧
    (∃ v : ACValuation, approveConstraint v ∧ approveGuard v ∧
      ¬ approveFrame v) := by
  constructor
  · intro v hc hg
    obtain ⟨ha1, ha2⟩ := hc hg
    obtain ⟨-, h2⟩ := hg
    unfold action1 at ha1
    unfold require2 at h2
    unfold action2 at ha2
    rw [h2] at ha1
    exact ⟨ha1, ha2⟩
  · refine ⟨v7, fun _ => ⟨by decide, by decide⟩, by decide, fun h => ?_⟩
    exact absurd (h.1 0) (by decide)

end SmartContracts
